import Mathlib

/-!
Shallow embedding of the Valerixy reservation protocol core.

Inventory side: `src/inventory-service/src/domain/stockRepository.ts`,
`src/inventory-service/src/consumers/verifyOrderConsumer.ts`,
`src/inventory-service/src/handlers/inventoryHandler.ts`, `init.sql`.
Order side: the order repository and inventory-events consumer
(`src/unnamed/part_000`), the HTTP routes (`src/order-service/src/telemetry.ts`,
second document), and the gRPC client error classification
(`src/order-service/src/clients/inventoryClient.ts`).

Databases are modelled as lists of rows; each repository function is a pure
state transformer returning (result, new state), where exception paths that
roll the transaction back are `Option`-valued results with the state unchanged.
-/

namespace Valerixy

/-! ## Inventory data model (init.sql, stockRepository.ts) -/

/-- Reservation row status: `active`, `released` or `committed`. -/
inductive ResStatus
  | active
  | released
  | committed
deriving DecidableEq, Repr

/-- `statusToString` renders a reservation status the way the TS string enum reads. -/
def ResStatus.toName : ResStatus → String
  | .active => "active"
  | .released => "released"
  | .committed => "committed"

/-- A row of the `products` table (price / timestamps dropped: never read by the protocol). -/
structure Product where
  id : String
  name : String
  stock : Int
  lowStockThreshold : Int
deriving DecidableEq, Repr

/-- A row of the `reservations` table. -/
structure Reservation where
  id : String
  orderId : String
  productId : String
  quantity : Int
  status : ResStatus
  idempotencyKey : Option String
deriving DecidableEq, Repr

/-- A row of the append-only `stock_audit_log` table. -/
structure AuditRow where
  productId : String
  operation : String
  quantityChange : Int
  previousStock : Int
  newStock : Int
  orderId : String
  reservationId : String
  reason : String
deriving DecidableEq, Repr

/-- The Inventory database. -/
structure InvState where
  products : List Product
  reservations : List Reservation
  auditLog : List AuditRow
deriving DecidableEq, Repr

/-- Result of `reserveStock` (stockRepository.ts `ReserveResult`);
optional fields are absent exactly when the TS object omits them. -/
inductive ReserveStatus
  | confirmed
  | insufficient_stock
  | product_not_found
  | already_exists
deriving DecidableEq, Repr

structure ReserveResult where
  success : Bool
  message : String
  reservationId : Option String
  remainingStock : Option Int
  status : ReserveStatus
deriving DecidableEq, Repr

/-- Result of `releaseStock` (stockRepository.ts `ReleaseResult`). -/
structure ReleaseResult where
  success : Bool
  message : String
  newStock : Option Int
deriving DecidableEq, Repr

/-- `SELECT * FROM reservations WHERE idempotency_key = $1` (first row). -/
def findByKey (rs : List Reservation) (key : String) : Option Reservation :=
  rs.find? (fun r => r.idempotencyKey == some key)

/-- `SELECT * FROM products WHERE id = $1` (first row). -/
def findProduct (ps : List Product) (productId : String) : Option Product :=
  ps.find? (fun p => p.id == productId)

/-- `UPDATE products SET stock = $1 WHERE id = $2`. -/
def setStock (ps : List Product) (productId : String) (newStock : Int) : List Product :=
  ps.map (fun p => if p.id == productId then { p with stock := newStock } else p)

/-- The `if (idempotencyKey) { SELECT ... }` prologue of `reserveStock`:
the lookup runs only when a key was passed. -/
def idempotencyHit (idempotencyKey : Option String) (s : InvState) : Option Reservation :=
  match idempotencyKey with
  | some key => findByKey s.reservations key
  | none => none

/-- `reserveStock` (stockRepository.ts lines 126-230). `newResId` stands for the
fresh `uuidv4()`; the whole body is one transaction, so failure branches return
the state unchanged. -/
def reserveStock (newResId orderId productId : String) (quantity : Int)
    (idempotencyKey : Option String) (s : InvState) : ReserveResult × InvState :=
  match idempotencyHit idempotencyKey s with
  | some existing =>
      ({ success := true
         message := "Reservation already exists (idempotent)"
         reservationId := some existing.id
         remainingStock := none
         status := .already_exists }, s)
  | none =>
    match findProduct s.products productId with
    | none =>
        ({ success := false
           message := "Product " ++ productId ++ " not found"
           reservationId := none
           remainingStock := none
           status := .product_not_found }, s)
    | some product =>
      let currentStock := product.stock
      if currentStock < quantity then
        ({ success := false
           message := "Insufficient stock. Available: " ++ toString currentStock
                        ++ ", Requested: " ++ toString quantity
           reservationId := none
           remainingStock := some currentStock
           status := .insufficient_stock }, s)
      else
        let newStock := currentStock - quantity
        let reservation : Reservation :=
          { id := newResId
            orderId := orderId
            productId := productId
            quantity := quantity
            status := .active
            idempotencyKey := idempotencyKey }
        let auditRow : AuditRow :=
          { productId := productId
            operation := "reserve"
            quantityChange := -quantity
            previousStock := currentStock
            newStock := newStock
            orderId := orderId
            reservationId := newResId
            reason := "order_reservation" }
        ({ success := true
           message := "Stock reserved successfully"
           reservationId := some newResId
           remainingStock := some newStock
           status := .confirmed },
         { products := setStock s.products productId newStock
           reservations := s.reservations ++ [reservation]
           auditLog := s.auditLog ++ [auditRow] })

/-- `releaseStock` (stockRepository.ts lines 232-316). The `none` result models
the exception path (`productResult.rows[0]` undefined when the reservation's
product row is missing), which rolls the transaction back. -/
def releaseStock (orderId reservationId reason : String) (s : InvState) :
    Option ReleaseResult × InvState :=
  match s.reservations.find? (fun r => r.id == reservationId && r.orderId == orderId) with
  | none =>
      (some { success := false, message := "Reservation not found", newStock := none }, s)
  | some reservation =>
    if reservation.status ≠ ResStatus.active then
      (some { success := false
              message := "Reservation already " ++ reservation.status.toName
              newStock := none }, s)
    else
      match findProduct s.products reservation.productId with
      | none => (none, s)
      | some product =>
        let newStock := product.stock + reservation.quantity
        let auditRow : AuditRow :=
          { productId := reservation.productId
            operation := "release"
            quantityChange := reservation.quantity
            previousStock := product.stock
            newStock := newStock
            orderId := orderId
            reservationId := reservationId
            reason := reason }
        (some { success := true, message := "Stock released successfully", newStock := some newStock },
         { products := setStock s.products reservation.productId newStock
           reservations := s.reservations.map
             (fun r => if r.id == reservationId then { r with status := .released } else r)
           auditLog := s.auditLog ++ [auditRow] })

/-- `findReservationByOrderId` (stockRepository.ts lines 318-344):
first reservation row with the given `order_id` and status `active`. -/
def findReservationByOrderId (orderId : String) (s : InvState) : Option Reservation :=
  s.reservations.find? (fun r => r.orderId == orderId && r.status == ResStatus.active)

/-! ## Inventory-side bus events and handlers -/

/-- Events published on `inventory-events` (payload fields as the TS code fills
them; `Option` fields stand for possibly-undefined TS values passed through). -/
inductive InvEvent
  | stockReserved (orderId productId : String) (quantity : Int)
      (remainingStock : Option Int) (reservationId : Option String)
  | lowStockAlert (productId : String) (currentStock threshold : Int)
  | orderVerified (orderId productId : String) (quantity : Int)
      (status : String) (recoveredFromCrash : Bool) (reservationId : Option String)
  | stockReleased (orderId productId : String) (quantity : Int)
      (newStock : Option Int) (reason : String)
deriving DecidableEq, Repr

/-- Payload of a `VerifyOrder` queue message (verifyOrderConsumer.ts). -/
structure VerifyOrderData where
  orderId : String
  productId : String
  quantity : Int
  idempotencyKey : String
deriving DecidableEq, Repr

/-- `handleVerifyOrderMessage` (verifyOrderConsumer.ts lines 50-150): returns
the events published on `inventory-events` and the new Inventory state.
`newResId` is the fresh uuid `reserveStock` would mint. -/
def handleVerifyOrderMessage (newResId : String) (msg : VerifyOrderData) (s : InvState) :
    List InvEvent × InvState :=
  match findReservationByOrderId msg.orderId s with
  | some existing =>
      ([.orderVerified msg.orderId msg.productId msg.quantity "confirmed" true (some existing.id)], s)
  | none =>
      let r := reserveStock newResId msg.orderId msg.productId msg.quantity
                 (some ("verify-" ++ msg.idempotencyKey)) s
      if r.1.success then
        ([.orderVerified msg.orderId msg.productId msg.quantity "confirmed" false r.1.reservationId,
          .stockReserved msg.orderId msg.productId msg.quantity r.1.remainingStock r.1.reservationId],
         r.2)
      else
        ([.orderVerified msg.orderId msg.productId msg.quantity "not_found" false none], r.2)

/-- Outcome of the `ReleaseStock` gRPC handler (inventoryHandler.ts lines 142-187):
events published, the unary response (`none` models the INTERNAL-error callback
on the exception path), and the new state. -/
structure GrpcReleaseOutcome where
  published : List InvEvent
  response : Option ReleaseResult
  state : InvState
deriving DecidableEq, Repr

/-- The `ReleaseStock` gRPC handler: on repository success it publishes a
`StockReleased` event whose `productId` is the literal `"unknown"` and whose
`quantity` is `0` (the code's placeholder values), then answers the RPC. -/
def grpcReleaseStock (orderId reservationId reason : String) (s : InvState) :
    GrpcReleaseOutcome :=
  match releaseStock orderId reservationId reason s with
  | (none, s1) => { published := [], response := none, state := s1 }
  | (some result, s1) =>
      if result.success then
        { published := [.stockReleased orderId "unknown" 0 result.newStock reason]
          response := some result
          state := s1 }
      else
        { published := [], response := some result, state := s1 }

/-! ## Order data model (order-service init.sql, orderRepository in src/unnamed/part_000) -/

/-- Order status as in the TS union type. -/
inductive OrderStatus
  | pending
  | reserved
  | confirmed
  | failed
  | pending_verification
  | cancelled
deriving DecidableEq, Repr

def OrderStatus.toName : OrderStatus → String
  | .pending => "pending"
  | .reserved => "reserved"
  | .confirmed => "confirmed"
  | .failed => "failed"
  | .pending_verification => "pending_verification"
  | .cancelled => "cancelled"

/-- A row of the `orders` table; `completedAt` models `completed_at IS NOT NULL`. -/
structure Order where
  id : String
  customerId : String
  productId : String
  quantity : Int
  status : OrderStatus
  idempotencyKey : Option String
  reservationId : Option String
  errorMessage : Option String
  completedAt : Bool
deriving DecidableEq, Repr

/-- A row of the `order_events` side table (payload dropped). -/
structure OrderEventRow where
  orderId : String
  eventType : String
deriving DecidableEq, Repr

/-- The Order database. -/
structure OrderDb where
  orders : List Order
  orderEvents : List OrderEventRow
deriving DecidableEq, Repr

/-- `SELECT * FROM orders WHERE id = $1` (first row). -/
def getOrder (db : OrderDb) (orderId : String) : Option Order :=
  db.orders.find? (fun o => o.id == orderId)

/-- `SELECT * FROM orders WHERE idempotency_key = $1` (first row). -/
def getOrderByIdempotencyKey (db : OrderDb) (key : String) : Option Order :=
  db.orders.find? (fun o => o.idempotencyKey == some key)

/-- One row's view of `updateOrderStatus`'s dynamic `UPDATE`: the
`reservation_id` / `error_message` columns are touched only when the TS
argument is not `undefined` (modelled as `some`); `completed_at` is set for
the three terminal statuses. -/
def applyUpdate (o : Order) (status : OrderStatus)
    (reservationId errorMessage : Option String) : Order :=
  { o with
    status := status
    reservationId := match reservationId with | some r => some r | none => o.reservationId
    errorMessage := match errorMessage with | some e => some e | none => o.errorMessage
    completedAt :=
      if status = .confirmed ∨ status = .failed ∨ status = .cancelled then true
      else o.completedAt }

/-- `updateOrderStatus` (src/unnamed/part_000 lines 293-338). Returns the
updated row (or `none` when no row matched, in which case no event row is
inserted either). -/
def updateOrderStatus (db : OrderDb) (orderId : String) (status : OrderStatus)
    (reservationId errorMessage : Option String) : Option Order × OrderDb :=
  match getOrder db orderId with
  | none => (none, db)
  | some o =>
      (some (applyUpdate o status reservationId errorMessage),
       { orders := db.orders.map
           (fun x => if x.id == orderId then applyUpdate x status reservationId errorMessage else x)
         orderEvents := db.orderEvents ++
           [{ orderId := orderId, eventType := "Status_" ++ status.toName }] })

/-- Input of `createOrder`. -/
structure CreateOrderInput where
  customerId : String
  productId : String
  quantity : Int
  idempotencyKey : Option String
deriving DecidableEq, Repr

/-- `createOrder` (src/unnamed/part_000 lines 235-266): idempotency-key lookup
first, otherwise insert a `pending` order plus an `OrderCreated` event row.
`newId` stands for the fresh `uuidv4()`. -/
def createOrder (newId : String) (input : CreateOrderInput) (db : OrderDb) : Order × OrderDb :=
  let hit : Option Order :=
    match input.idempotencyKey with
    | some key => getOrderByIdempotencyKey db key
    | none => none
  match hit with
  | some existing => (existing, db)
  | none =>
      let o : Order :=
        { id := newId
          customerId := input.customerId
          productId := input.productId
          quantity := input.quantity
          status := .pending
          idempotencyKey := input.idempotencyKey
          reservationId := none
          errorMessage := none
          completedAt := false }
      (o, { orders := db.orders ++ [o]
            orderEvents := db.orderEvents ++ [{ orderId := newId, eventType := "OrderCreated" }] })

/-! ## Order-side bus events, inventory-events consumer (src/unnamed/part_000) -/

/-- Events published on `order-events` by the order service. -/
inductive OrderEvent
  | orderCreated (orderId customerId productId : String) (quantity : Int)
  | orderConfirmed (orderId : String) (reservationId : Option String)
  | orderFailed (orderId : String) (reason : String)
  | orderPendingVerification (orderId productId : String) (quantity : Int) (reason : String)
  | orderCancelled (orderId : String)
deriving DecidableEq, Repr

/-- `handleStockReserved` (src/unnamed/part_000 lines 64-98): unconditionally
updates the order to `confirmed` with the event's `reservationId`, then
publishes `OrderConfirmed` when the order row existed. -/
def handleStockReserved (db : OrderDb) (orderId : String) (reservationId : Option String) :
    List OrderEvent × OrderDb :=
  let u := updateOrderStatus db orderId .confirmed reservationId none
  match u.1 with
  | some _ => ([.orderConfirmed orderId reservationId], u.2)
  | none => ([], u.2)

/-- Payload of an `OrderVerified` / `VerificationComplete` event as the consumer
destructures it (`Option` = property possibly absent on the wire). -/
structure VerificationEventData where
  orderId : String
  reservationId : Option String
  reason : Option String
  status : Option String
  verified : Option Bool
deriving DecidableEq, Repr

/-- `handleVerificationComplete` (src/unnamed/part_000 lines 108-172): applies
only to orders in `pending_verification`; `verified := data.verified ?? (status
== "confirmed")`; failure reason defaults when the carried reason is falsy. -/
def handleVerificationComplete (db : OrderDb) (e : VerificationEventData) :
    List OrderEvent × OrderDb :=
  let verified : Bool := e.verified.getD (e.status == some "confirmed")
  match getOrder db e.orderId with
  | none => ([], db)
  | some o =>
    if o.status ≠ .pending_verification then ([], db)
    else if verified then
      let u := updateOrderStatus db e.orderId .confirmed e.reservationId none
      ([.orderConfirmed e.orderId e.reservationId], u.2)
    else
      let reasonStr :=
        match e.reason with
        | some r => if r = "" then "Verification failed - no reservation found" else r
        | none => "Verification failed - no reservation found"
      let u := updateOrderStatus db e.orderId .failed none (some reasonStr)
      ([.orderFailed e.orderId reasonStr], u.2)

/-! ## HTTP routes (order-service telemetry.ts, second document) -/

/-- JS truthiness of an optional string (`undefined`/`null`/`""` are falsy). -/
def strTruthy : Option String → Bool
  | some v => v ≠ ""
  | none => false

/-- JS truthiness of an optional number (`undefined`/`null`/`0` are falsy). -/
def intTruthy : Option Int → Bool
  | some v => v ≠ 0
  | none => false

/-- Outcome of `POST /orders/:id/cancel`: HTTP code, both databases, events
published on `order-events`. -/
structure CancelOutcome where
  code : Nat
  db : OrderDb
  inv : InvState
  published : List OrderEvent
deriving DecidableEq, Repr

/-- The cancel route (telemetry.ts second document, lines 371-441). A release
failure (including the gRPC error path) is swallowed; the Inventory state is
whatever `releaseStock`'s transaction left (unchanged on every failure path). -/
def cancelOrder (db : OrderDb) (inv : InvState) (orderId : String) : CancelOutcome :=
  match getOrder db orderId with
  | none => { code := 404, db := db, inv := inv, published := [] }
  | some o =>
    if o.status = .cancelled then { code := 400, db := db, inv := inv, published := [] }
    else if o.status = .failed then { code := 400, db := db, inv := inv, published := [] }
    else
      let inv1 :=
        if o.status = .confirmed ∧ strTruthy o.reservationId then
          match o.reservationId with
          | some rid => (releaseStock o.id rid "Order cancelled by user" inv).2
          | none => inv
        else inv
      let u := updateOrderStatus db o.id .cancelled none none
      { code := 200, db := u.2, inv := inv1, published := [.orderCancelled o.id] }

/-- gRPC status codes used by the client (grpc-js numeric values). -/
def grpcDeadlineExceeded : Nat := 4
def grpcUnavailable : Nat := 14

/-- The client-side deadline on the reservation RPC (inventoryClient.ts). -/
def GRPC_TIMEOUT_MS : Nat := 2000

/-- How `POST /orders` sees the reservation RPC: a reply, or a rejection
classified by `inventoryClient.reserveStock` (DEADLINE_EXCEEDED → `"TIMEOUT"`,
UNAVAILABLE → `"UNAVAILABLE"`, anything else rethrown). -/
inductive RpcOutcome
  | ok (success : Bool) (message : String) (reservationId : String)
  | timeout
  | unavailable
  | err
deriving DecidableEq, Repr

/-- Classification of a failed `reserveStock` RPC by its gRPC status code
(inventoryClient.ts lines 95-104 plus the route's catch on the two strings). -/
def rpcOutcomeOfError (code : Nat) : RpcOutcome :=
  if code = grpcDeadlineExceeded then .timeout
  else if code = grpcUnavailable then .unavailable
  else .err

/-- The request body/headers of `POST /orders`; `idempotencyKey` is the
effective `header ∨ body` value, `none` when absent or falsy. -/
structure PostOrdersRequest where
  customerId : Option String
  productId : Option String
  quantity : Option Int
  idempotencyKey : Option String
deriving DecidableEq, Repr

/-- The JSON reply of `POST /orders` (fields the claims talk about). -/
structure PostResponse where
  code : Nat
  success : Bool
  order : Option Order
  cached : Bool
deriving DecidableEq, Repr

/-- A `VerifyOrder` queue message as the coordinator enqueues it. -/
structure VerifyMsg where
  orderId : String
  productId : String
  quantity : Int
  idempotencyKey : String
  originalRequestTime : String
deriving DecidableEq, Repr

/-- Outcome of `POST /orders`: reply, new Order DB, events published on
`order-events`, messages enqueued on `verify-orders`. -/
structure PostOutcome where
  response : PostResponse
  db : OrderDb
  published : List OrderEvent
  verifyQueue : List VerifyMsg
deriving DecidableEq, Repr

/-- `POST /orders` (telemetry.ts second document, lines 101-309). `genOrderId`
and `genKey` stand for the two `uuidv4()` calls, `now` for the enqueue-time
timestamp. The `RpcOutcome.err` case is the route's catch-all 500. -/
def postOrders (genOrderId genKey now : String) (req : PostOrdersRequest)
    (rpc : RpcOutcome) (db : OrderDb) : PostOutcome :=
  if ¬ (strTruthy req.customerId ∧ strTruthy req.productId ∧ intTruthy req.quantity) then
    { response := { code := 400, success := false, order := none, cached := false }
      db := db, published := [], verifyQueue := [] }
  else
    let customerId := req.customerId.getD ""
    let productId := req.productId.getD ""
    let quantity := req.quantity.getD 0
    if quantity ≤ 0 then
      { response := { code := 400, success := false, order := none, cached := false }
        db := db, published := [], verifyQueue := [] }
    else
      let requestIdempotencyKey := req.idempotencyKey.getD genKey
      let cacheHit : Option Order :=
        match req.idempotencyKey with
        | some k => getOrderByIdempotencyKey db k
        | none => none
      match cacheHit with
      | some existing =>
          { response := { code := 200, success := true, order := some existing, cached := true }
            db := db, published := [], verifyQueue := [] }
      | none =>
        let c := createOrder genOrderId
          { customerId := customerId, productId := productId, quantity := quantity
            idempotencyKey := some requestIdempotencyKey } db
        let order := c.1
        let db1 := c.2
        let created : OrderEvent := .orderCreated order.id customerId productId quantity
        match rpc with
        | .timeout =>
            let u := updateOrderStatus db1 order.id .pending_verification none none
            { response := { code := 202, success := true, order := getOrder u.2 order.id
                            cached := false }
              db := u.2
              published := [created,
                .orderPendingVerification order.id productId quantity
                  "gRPC timeout - verification required"]
              verifyQueue := [{ orderId := order.id, productId := productId, quantity := quantity
                                idempotencyKey := requestIdempotencyKey
                                originalRequestTime := now }] }
        | .unavailable =>
            let u := updateOrderStatus db1 order.id .pending_verification none none
            { response := { code := 202, success := true, order := getOrder u.2 order.id
                            cached := false }
              db := u.2
              published := [created,
                .orderPendingVerification order.id productId quantity
                  "gRPC timeout - verification required"]
              verifyQueue := [{ orderId := order.id, productId := productId, quantity := quantity
                                idempotencyKey := requestIdempotencyKey
                                originalRequestTime := now }] }
        | .err =>
            { response := { code := 500, success := false, order := none, cached := false }
              db := db1, published := [created], verifyQueue := [] }
        | .ok success message reservationId =>
            if success then
              let u := updateOrderStatus db1 order.id .confirmed (some reservationId) none
              { response := { code := 201, success := true, order := getOrder u.2 order.id
                              cached := false }
                db := u.2
                published := [created, .orderConfirmed order.id (some reservationId)]
                verifyQueue := [] }
            else
              let u := updateOrderStatus db1 order.id .failed none (some message)
              { response := { code := 400, success := false, order := getOrder u.2 order.id
                              cached := false }
                db := u.2
                published := [created, .orderFailed order.id message]
                verifyQueue := [] }

/-! ## Helper lemmas -/

/-- `find?` over an update-in-place map (the SQL `UPDATE ... WHERE` pattern):
when the update preserves the selection predicate, finding after updating is
updating the found row. -/
theorem find?_map_guard {α : Type} (p : α → Bool) (f : α → α)
    (hp : ∀ a, p (f a) = p a) (l : List α) :
    (l.map fun x => if p x then f x else x).find? p = (l.find? p).map f := by
  induction l with
  | nil => rfl
  | cons a t ih =>
    by_cases h : p a
    · simp [List.find?_cons, h, hp]
    · simp [List.find?_cons, h, ih]

/-- A predicate-preserving row update keeps a `find?`-miss a miss. -/
theorem find?_map_pres {α : Type} (p : α → Bool) (g : α → α)
    (hg : ∀ a, p (g a) = p a) (l : List α) (h : l.find? p = none) :
    (l.map g).find? p = none := by
  rw [List.find?_eq_none] at h ⊢
  intro x hx
  rcases List.mem_map.mp hx with ⟨a, ha, rfl⟩
  rw [hg]
  exact h a ha

/-- The state left by `reserveStock` either is the input state or appends
exactly one `active` reservation row carrying the call's arguments. -/
theorem reserveStock_reservations (newResId orderId productId : String) (q : Int)
    (key : Option String) (s : InvState) :
    (reserveStock newResId orderId productId q key s).2.reservations = s.reservations ∨
    (reserveStock newResId orderId productId q key s).2.reservations =
      s.reservations ++ [{ id := newResId, orderId := orderId, productId := productId
                           quantity := q, status := .active, idempotencyKey := key }] := by
  unfold reserveStock
  rcases idempotencyHit key s with _ | ex
  · rcases findProduct s.products productId with _ | p
    · simp
    · by_cases h : p.stock < q <;> simp [h]
  · simp

/-! ## C2 — reserve idempotence -/

/-- Empty Inventory state used for the C2 counterexample. -/
def invC2cx : InvState := { products := [], reservations := [], auditLog := [] }

/-- C2 (counterexample): two `reserveStock` calls with the same non-null
idempotency key, as such, need not leave one reservation row nor make the
second call answer `already_exists`: when the first call fails (here the
product does not exist) the second fails the same way and zero rows exist. -/
theorem C2_counterexample :
    ((reserveStock "r2" "o1" "p1" 1 (some "k")
        (reserveStock "r1" "o1" "p1" 1 (some "k") invC2cx).2).1.status ≠
      ReserveStatus.already_exists) ∧
    (((reserveStock "r2" "o1" "p1" 1 (some "k")
        (reserveStock "r1" "o1" "p1" 1 (some "k") invC2cx).2).2.reservations.filter
        (fun r => r.idempotencyKey == some "k")).length = 0) := by decide

/-- C2 (amended): when the first `reserveStock` call with key `k` succeeds with
status `confirmed`, then exactly one reservation row with key `k` exists, and a
second call with key `k` (any arguments) returns success with status
`already_exists` and the first call's `reservationId`, changing no state. -/
theorem C2_reserve_idempotent (s : InvState) (rid1 rid2 o1 o2 p1 p2 : String)
    (q1 q2 : Int) (k : String)
    (h : (reserveStock rid1 o1 p1 q1 (some k) s).1.status = ReserveStatus.confirmed) :
    (reserveStock rid2 o2 p2 q2 (some k) (reserveStock rid1 o1 p1 q1 (some k) s).2).1 =
      { success := true, message := "Reservation already exists (idempotent)"
        reservationId := some rid1, remainingStock := none
        status := .already_exists } ∧
    (reserveStock rid2 o2 p2 q2 (some k) (reserveStock rid1 o1 p1 q1 (some k) s).2).2 =
      (reserveStock rid1 o1 p1 q1 (some k) s).2 ∧
    ((reserveStock rid1 o1 p1 q1 (some k) s).2.reservations.filter
        (fun r => r.idempotencyKey == some k)).length = 1 := by
  rcases hhit : idempotencyHit (some k) s with _ | ex
  · rcases hprod : findProduct s.products p1 with _ | p
    · simp [reserveStock, hhit, hprod] at h
    · by_cases hq : p.stock < q1
      · simp [reserveStock, hhit, hprod, hq] at h
      · have hkey : findByKey s.reservations k = none := by
          simpa [idempotencyHit] using hhit
        have hkey' : s.reservations.find? (fun r => r.idempotencyKey == some k) = none := hkey
        have hcall1 : reserveStock rid1 o1 p1 q1 (some k) s =
            ({ success := true, message := "Stock reserved successfully"
               reservationId := some rid1, remainingStock := some (p.stock - q1)
               status := .confirmed },
             { products := setStock s.products p1 (p.stock - q1)
               reservations := s.reservations ++
                 [{ id := rid1, orderId := o1, productId := p1, quantity := q1
                    status := .active, idempotencyKey := some k }]
               auditLog := s.auditLog ++
                 [{ productId := p1, operation := "reserve", quantityChange := -q1
                    previousStock := p.stock, newStock := p.stock - q1
                    orderId := o1, reservationId := rid1
                    reason := "order_reservation" }] }) := by
          simp [reserveStock, hhit, hprod, hq]
        rw [hcall1]
        have hhit2 : idempotencyHit (some k)
            { products := setStock s.products p1 (p.stock - q1)
              reservations := s.reservations ++
                [{ id := rid1, orderId := o1, productId := p1, quantity := q1
                   status := .active, idempotencyKey := some k }]
              auditLog := s.auditLog ++
                [{ productId := p1, operation := "reserve", quantityChange := -q1
                   previousStock := p.stock, newStock := p.stock - q1
                   orderId := o1, reservationId := rid1
                   reason := "order_reservation" }] } =
            some { id := rid1, orderId := o1, productId := p1, quantity := q1
                   status := .active, idempotencyKey := some k } := by
          simp [idempotencyHit, findByKey, List.find?_append, hkey']
        refine ⟨?_, ?_, ?_⟩
        · simp [reserveStock, hhit2]
        · simp [reserveStock, hhit2]
        · simp [List.filter_append, List.filter_eq_nil_iff.mpr (List.find?_eq_none.mp hkey')]
  · simp [reserveStock, hhit] at h

/-- Inventory fixture for the C2 witness. -/
def invC2w : InvState :=
  { products := [{ id := "pw", name := "P", stock := 10, lowStockThreshold := 2 }]
    reservations := [], auditLog := [] }

/-- Witness for C2 at a concrete successful first call. -/
theorem C2_reserve_idempotent_witness :
    ((reserveStock "rw1" "ow" "pw" 3 (some "kw") invC2w).1.status =
      ReserveStatus.confirmed) ∧
    ((reserveStock "rw2" "ow" "pw" 3 (some "kw")
        (reserveStock "rw1" "ow" "pw" 3 (some "kw") invC2w).2).1 =
      { success := true, message := "Reservation already exists (idempotent)"
        reservationId := some "rw1", remainingStock := none
        status := .already_exists } ∧
    (reserveStock "rw2" "ow" "pw" 3 (some "kw")
        (reserveStock "rw1" "ow" "pw" 3 (some "kw") invC2w).2).2 =
      (reserveStock "rw1" "ow" "pw" 3 (some "kw") invC2w).2 ∧
    ((reserveStock "rw1" "ow" "pw" 3 (some "kw") invC2w).2.reservations.filter
        (fun r => r.idempotencyKey == some "kw")).length = 1) :=
  ⟨by decide,
   C2_reserve_idempotent invC2w "rw1" "rw2" "ow" "ow" "pw" "pw" 3 3 "kw" (by decide)⟩

/-! ## C3 — active reservations per order -/

/-- Number of `active` reservation rows carrying a given `order_id`. -/
def activeCount (orderId : String) (s : InvState) : Nat :=
  (s.reservations.filter
    (fun r => r.orderId == orderId && r.status == ResStatus.active)).length

/-- Inventory fixture for the C3 counterexample: one product, no reservations. -/
def invC3cx : InvState :=
  { products := [{ id := "p1", name := "P", stock := 10, lowStockThreshold := 2 }]
    reservations := [], auditLog := [] }

/-- C3 (counterexample): two sequential `reserveStock` calls for the same
`order_id` with two different idempotency keys leave two `active` reservation
rows for that order — nothing enforces per-order uniqueness across plain
`reserveStock` calls. -/
theorem C3_counterexample :
    activeCount "o1"
      (reserveStock "r2" "o1" "p1" 2 (some "k2")
        (reserveStock "r1" "o1" "p1" 2 (some "k1") invC3cx).2).2 = 2 := by decide

/-- C3 (amended): the `VerifyOrder` handler preserves the at-most-one-active
invariant for the message's order: given at most one active reservation for
`msg.orderId`, the handler's lookup-before-reserve leaves at most one (in
particular it never reserves again when one exists). -/
theorem C3_verify_preserves_unique_active (newResId : String) (msg : VerifyOrderData)
    (s : InvState) (h : activeCount msg.orderId s ≤ 1) :
    activeCount msg.orderId (handleVerifyOrderMessage newResId msg s).2 ≤ 1 := by
  unfold handleVerifyOrderMessage
  rcases hfind : findReservationByOrderId msg.orderId s with _ | ex
  · have h0 : s.reservations.filter
        (fun r => r.orderId == msg.orderId && r.status == ResStatus.active) = [] :=
      List.filter_eq_nil_iff.mpr
        (List.find?_eq_none.mp (by simpa [findReservationByOrderId] using hfind))
    have hgoal : activeCount msg.orderId
        (reserveStock newResId msg.orderId msg.productId msg.quantity
          (some ("verify-" ++ msg.idempotencyKey)) s).2 ≤ 1 := by
      unfold activeCount
      rcases reserveStock_reservations newResId msg.orderId msg.productId msg.quantity
          (some ("verify-" ++ msg.idempotencyKey)) s with hres | hres <;> rw [hres]
      · simp [h0]
      · rw [List.filter_append, h0]
        simp [List.length_filter_le]
    by_cases hsucc : (reserveStock newResId msg.orderId msg.productId msg.quantity
        (some ("verify-" ++ msg.idempotencyKey)) s).1.success
    · simpa [hsucc] using hgoal
    · simpa [hsucc] using hgoal
  · simp [h]

/-- Inventory fixture for the C3 witness: one order already holding an active
reservation. -/
def invC3w : InvState :=
  { products := [{ id := "pw", name := "P", stock := 10, lowStockThreshold := 2 }]
    reservations := [{ id := "rw", orderId := "ow", productId := "pw", quantity := 1
                       status := .active, idempotencyKey := some "kw" }]
    auditLog := [] }

/-- Witness for C3 at a concrete state holding one active reservation. -/
theorem C3_verify_preserves_unique_active_witness :
    activeCount "ow"
      (handleVerifyOrderMessage "rv"
        { orderId := "ow", productId := "pw", quantity := 1, idempotencyKey := "kw" }
        invC3w).2 ≤ 1 :=
  C3_verify_preserves_unique_active "rv"
    { orderId := "ow", productId := "pw", quantity := 1, idempotencyKey := "kw" }
    invC3w (by decide)

/-! ## C4 — reserveStock contract -/

/-- Fixture for the C4 counterexample: a reservation with key `"k"` exists and
the product has stock 5. -/
def invC4cx : InvState :=
  { products := [{ id := "p1", name := "P", stock := 5, lowStockThreshold := 1 }]
    reservations := [{ id := "r0", orderId := "o0", productId := "p1", quantity := 1
                       status := .active, idempotencyKey := some "k" }]
    auditLog := [] }

/-- C4 (counterexample): on an idempotency-key hit, `reserveStock` returns
`already_exists` with NO `remainingStock` field, not the current stock (5)
the claim's reference definition demands. -/
theorem C4_counterexample :
    (reserveStock "r1" "o1" "p1" 1 (some "k") invC4cx).1.status =
        ReserveStatus.already_exists ∧
    (reserveStock "r1" "o1" "p1" 1 (some "k") invC4cx).1.remainingStock = none ∧
    (findProduct invC4cx.products "p1").map Product.stock = some 5 := by decide

/-- C4 (amended): the reference contract of `reserveStock`, with the
`already_exists` reply carrying no `remainingStock`; the other three branches
are exactly as claimed (missing product and insufficient stock change no
state; the success branch deducts stock, inserts one `active` reservation and
appends one audit row recording previous and new stock). -/
theorem C4_reserve_contract (newResId orderId productId : String) (q : Int)
    (key : Option String) (s : InvState) :
    (∀ ex, idempotencyHit key s = some ex →
        reserveStock newResId orderId productId q key s =
          ({ success := true, message := "Reservation already exists (idempotent)"
             reservationId := some ex.id, remainingStock := none
             status := .already_exists }, s)) ∧
    (idempotencyHit key s = none →
      (findProduct s.products productId = none →
          reserveStock newResId orderId productId q key s =
            ({ success := false, message := "Product " ++ productId ++ " not found"
               reservationId := none, remainingStock := none
               status := .product_not_found }, s)) ∧
      (∀ p, findProduct s.products productId = some p →
        (p.stock < q →
            reserveStock newResId orderId productId q key s =
              ({ success := false
                 message := "Insufficient stock. Available: " ++ toString p.stock
                              ++ ", Requested: " ++ toString q
                 reservationId := none, remainingStock := some p.stock
                 status := .insufficient_stock }, s)) ∧
        (¬ p.stock < q →
            reserveStock newResId orderId productId q key s =
              ({ success := true, message := "Stock reserved successfully"
                 reservationId := some newResId, remainingStock := some (p.stock - q)
                 status := .confirmed },
               { products := setStock s.products productId (p.stock - q)
                 reservations := s.reservations ++
                   [{ id := newResId, orderId := orderId, productId := productId
                      quantity := q, status := .active, idempotencyKey := key }]
                 auditLog := s.auditLog ++
                   [{ productId := productId, operation := "reserve"
                      quantityChange := -q, previousStock := p.stock
                      newStock := p.stock - q, orderId := orderId
                      reservationId := newResId
                      reason := "order_reservation" }] })))) := by
  refine ⟨?_, ?_⟩
  · intro ex hex
    simp [reserveStock, hex]
  · intro hnone
    refine ⟨?_, fun p hprod => ⟨?_, ?_⟩⟩
    · intro hprod
      simp [reserveStock, hnone, hprod]
    · intro hlt
      simp [reserveStock, hnone, hprod, hlt]
    · intro hge
      simp [reserveStock, hnone, hprod, hge]

/-- Fixture for the C4 witness. -/
def invC4w : InvState :=
  { products := [{ id := "pz", name := "P", stock := 7, lowStockThreshold := 1 }]
    reservations := [], auditLog := [] }

/-- Witness for C4: the success branch evaluated at a concrete call. -/
theorem C4_reserve_contract_witness :
    reserveStock "rz" "oz" "pz" 2 (some "kz") invC4w =
      ({ success := true, message := "Stock reserved successfully"
         reservationId := some "rz", remainingStock := some (7 - 2)
         status := .confirmed },
       { products := setStock invC4w.products "pz" (7 - 2)
         reservations := invC4w.reservations ++
           [{ id := "rz", orderId := "oz", productId := "pz"
              quantity := 2, status := .active, idempotencyKey := some "kz" }]
         auditLog := invC4w.auditLog ++
           [{ productId := "pz", operation := "reserve"
              quantityChange := -2, previousStock := 7
              newStock := 7 - 2, orderId := "oz", reservationId := "rz"
              reason := "order_reservation" }] }) :=
  (((C4_reserve_contract "rz" "oz" "pz" 2 (some "kz") invC4w).2 (by decide)).2
      { id := "pz", name := "P", stock := 7, lowStockThreshold := 1 } (by decide)).2
    (by decide)

/-! ## C1 — terminal order statuses -/

/-- A cancelled (terminal) order. -/
def oC1 : Order :=
  { id := "o1", customerId := "c1", productId := "p1", quantity := 1
    status := .cancelled, idempotencyKey := some "k1", reservationId := none
    errorMessage := none, completedAt := true }

/-- Order DB holding only the cancelled order. -/
def dbC1 : OrderDb := { orders := [oC1], orderEvents := [] }

/-- C1 (counterexample): a cancelled order that later receives a
`StockReserved` event does NOT keep its terminal status — the consumer
unconditionally rewrites it to `confirmed`. -/
theorem C1_counterexample :
    (getOrder dbC1 "o1").map Order.status = some OrderStatus.cancelled ∧
    (getOrder (handleStockReserved dbC1 "o1" (some "r1")).2 "o1").map Order.status =
      some OrderStatus.confirmed := by decide

/-- C1 (amended): terminal statuses are preserved on the
`OrderVerified`/`VerificationComplete` consumer path (any order not in
`pending_verification` is left untouched), and the cancel endpoint refuses
(HTTP 400, no change) orders already `failed` or `cancelled`; the
`StockReserved` consumer, by contrast, overwrites any status (counterexample). -/
theorem C1_terminal_guarded (db : OrderDb) (inv : InvState)
    (e : VerificationEventData) (o : Order)
    (ho : getOrder db e.orderId = some o)
    (ht : o.status = .confirmed ∨ o.status = .failed ∨ o.status = .cancelled) :
    (handleVerificationComplete db e).2 = db ∧
    ((o.status = .failed ∨ o.status = .cancelled) →
       cancelOrder db inv e.orderId =
         { code := 400, db := db, inv := inv, published := [] }) := by
  constructor
  · have hne : o.status ≠ .pending_verification := by
      rcases ht with h | h | h <;> simp [h]
    simp [handleVerificationComplete, ho, hne]
  · intro h2
    rcases h2 with h | h
    · simp [cancelOrder, ho, h]
    · simp [cancelOrder, ho, h]

/-- Empty Inventory state for the C1 witness. -/
def invC1w : InvState := { products := [], reservations := [], auditLog := [] }

/-- A verification event aimed at the cancelled order. -/
def eC1w : VerificationEventData :=
  { orderId := "o1", reservationId := some "r9", reason := none
    status := some "confirmed", verified := none }

/-- Witness for C1 at the concrete cancelled order. -/
theorem C1_terminal_guarded_witness :
    (handleVerificationComplete dbC1 eC1w).2 = dbC1 ∧
    ((oC1.status = .failed ∨ oC1.status = .cancelled) →
       cancelOrder dbC1 invC1w eC1w.orderId =
         { code := 400, db := dbC1, inv := invC1w, published := [] }) :=
  C1_terminal_guarded dbC1 invC1w eC1w oC1 (by decide) (by decide)

/-! ## C6 — VerifyOrder handler behaviour -/

/-- C6: the `VerifyOrder` handler publishes `OrderVerified{confirmed,
recoveredFromCrash:true, reservationId}` without reserving when an active
reservation for the order exists; otherwise it reserves under key
`"verify-<original>"` and publishes `OrderVerified{confirmed,false}` plus
`StockReserved` on success, or `OrderVerified{not_found,false}` on domain
failure. -/
theorem C6_verify_handler (newResId : String) (msg : VerifyOrderData) (s : InvState) :
    (∀ ex, findReservationByOrderId msg.orderId s = some ex →
        handleVerifyOrderMessage newResId msg s =
          ([.orderVerified msg.orderId msg.productId msg.quantity "confirmed" true
              (some ex.id)], s)) ∧
    (findReservationByOrderId msg.orderId s = none →
      ((reserveStock newResId msg.orderId msg.productId msg.quantity
          (some ("verify-" ++ msg.idempotencyKey)) s).1.success = true →
        handleVerifyOrderMessage newResId msg s =
          ([.orderVerified msg.orderId msg.productId msg.quantity "confirmed" false
              (reserveStock newResId msg.orderId msg.productId msg.quantity
                (some ("verify-" ++ msg.idempotencyKey)) s).1.reservationId,
            .stockReserved msg.orderId msg.productId msg.quantity
              (reserveStock newResId msg.orderId msg.productId msg.quantity
                (some ("verify-" ++ msg.idempotencyKey)) s).1.remainingStock
              (reserveStock newResId msg.orderId msg.productId msg.quantity
                (some ("verify-" ++ msg.idempotencyKey)) s).1.reservationId],
           (reserveStock newResId msg.orderId msg.productId msg.quantity
              (some ("verify-" ++ msg.idempotencyKey)) s).2)) ∧
      ((reserveStock newResId msg.orderId msg.productId msg.quantity
          (some ("verify-" ++ msg.idempotencyKey)) s).1.success = false →
        handleVerifyOrderMessage newResId msg s =
          ([.orderVerified msg.orderId msg.productId msg.quantity "not_found" false none],
           (reserveStock newResId msg.orderId msg.productId msg.quantity
              (some ("verify-" ++ msg.idempotencyKey)) s).2))) := by
  refine ⟨?_, ?_⟩
  · intro ex hex
    simp [handleVerifyOrderMessage, hex]
  · intro hnone
    constructor <;> intro hs <;> simp [handleVerifyOrderMessage, hnone, hs]

/-- Fixture for the C6 witness: the order already holds an active reservation. -/
def invC6w : InvState :=
  { products := [{ id := "p6", name := "P", stock := 4, lowStockThreshold := 1 }]
    reservations := [{ id := "r6", orderId := "o6", productId := "p6", quantity := 1
                       status := .active, idempotencyKey := some "k6" }]
    auditLog := [] }

/-- Witness for C6: crash-recovery branch at a concrete state. -/
theorem C6_verify_handler_witness :
    handleVerifyOrderMessage "rv6"
      { orderId := "o6", productId := "p6", quantity := 1, idempotencyKey := "k6" }
      invC6w =
      ([.orderVerified "o6" "p6" 1 "confirmed" true (some "r6")], invC6w) :=
  (C6_verify_handler "rv6"
      { orderId := "o6", productId := "p6", quantity := 1, idempotencyKey := "k6" }
      invC6w).1
    { id := "r6", orderId := "o6", productId := "p6", quantity := 1
      status := .active, idempotencyKey := some "k6" } (by decide)

/-! ## C10 — StockReleased placeholder payload -/

/-- C10: every successful `ReleaseStock` gRPC call publishes a `StockReleased`
event whose `productId` is the literal `"unknown"` and whose `quantity` is `0`;
only `orderId`, `newStock` and `reason` carry the actual release's data. -/
theorem C10_release_event (orderId reservationId reason : String) (s : InvState)
    (res : ReleaseResult)
    (h : (releaseStock orderId reservationId reason s).1 = some res)
    (hs : res.success = true) :
    (grpcReleaseStock orderId reservationId reason s).published =
      [InvEvent.stockReleased orderId "unknown" 0 res.newStock reason] := by
  unfold grpcReleaseStock
  rcases hrel : releaseStock orderId reservationId reason s with ⟨opt, s1⟩
  rw [hrel] at h
  simp only at h
  subst h
  simp [hs]

/-- Fixture for the C10 witness: a releasable active reservation. -/
def invC10w : InvState :=
  { products := [{ id := "pa", name := "P", stock := 5, lowStockThreshold := 1 }]
    reservations := [{ id := "ra", orderId := "oa", productId := "pa", quantity := 2
                       status := .active, idempotencyKey := none }]
    auditLog := [] }

/-- Witness for C10 at a concrete successful release. -/
theorem C10_release_event_witness :
    (grpcReleaseStock "oa" "ra" "why" invC10w).published =
      [InvEvent.stockReleased "oa" "unknown" 0 (some 7) "why"] :=
  C10_release_event "oa" "ra" "why" invC10w
    { success := true, message := "Stock released successfully", newStock := some 7 }
    (by decide) (by decide)

/-! ## C7 — cancel releases the reservation and restores stock -/

/-- `releaseStock` on a found, `active` reservation whose product row exists:
explicit success result and state. -/
theorem releaseStock_success (orderId reservationId reason : String) (s : InvState)
    (resv : Reservation) (p : Product)
    (hfind : s.reservations.find? (fun r => r.id == reservationId && r.orderId == orderId) =
      some resv)
    (hact : resv.status = .active)
    (hp : findProduct s.products resv.productId = some p) :
    releaseStock orderId reservationId reason s =
      (some { success := true, message := "Stock released successfully"
              newStock := some (p.stock + resv.quantity) },
       { products := setStock s.products resv.productId (p.stock + resv.quantity)
         reservations := s.reservations.map
           (fun r => if r.id == reservationId then { r with status := .released } else r)
         auditLog := s.auditLog ++
           [{ productId := resv.productId, operation := "release"
              quantityChange := resv.quantity, previousStock := p.stock
              newStock := p.stock + resv.quantity, orderId := orderId
              reservationId := reservationId, reason := reason }] }) := by
  simp [releaseStock, hfind, hact, hp]

/-- `getOrder` after `updateOrderStatus` on a present row returns the updated
row. -/
theorem getOrder_updateOrderStatus (db : OrderDb) (orderId : String) (st : OrderStatus)
    (rid em : Option String) (o : Order) (ho : getOrder db orderId = some o) :
    getOrder (updateOrderStatus db orderId st rid em).2 orderId =
      some (applyUpdate o st rid em) := by
  have ho' : db.orders.find? (fun x => x.id == orderId) = some o := by
    simpa [getOrder] using ho
  simp only [updateOrderStatus, getOrder, ho']
  rw [find?_map_guard (fun x => x.id == orderId)
        (fun x => applyUpdate x st rid em) (fun a => rfl) db.orders]
  rw [ho']
  rfl

/-- C7: cancelling a confirmed order holding an active reservation restores the
product's stock to its pre-reservation value `s + q`, marks the reservation
`released` and the order `cancelled`; and `releaseStock` on a missing or
non-`active` reservation fails with `success := false` changing nothing. -/
theorem C7_cancel_release (db : OrderDb) (inv : InvState) (o : Order)
    (resv : Reservation) (p : Product)
    (ho : getOrder db o.id = some o)
    (hst : o.status = .confirmed)
    (hrid : o.reservationId = some resv.id)
    (hne : resv.id ≠ "")
    (hfind : inv.reservations.find? (fun r => r.id == resv.id && r.orderId == o.id) = some resv)
    (hact : resv.status = .active)
    (hp : findProduct inv.products resv.productId = some p) :
    (cancelOrder db inv o.id).code = 200 ∧
    (findProduct (cancelOrder db inv o.id).inv.products resv.productId).map Product.stock =
      some (p.stock + resv.quantity) ∧
    (∀ r ∈ (cancelOrder db inv o.id).inv.reservations, r.id = resv.id → r.status = .released) ∧
    (getOrder (cancelOrder db inv o.id).db o.id).map Order.status =
      some OrderStatus.cancelled ∧
    (∀ oid rid reason t,
        t.reservations.find? (fun r => r.id == rid && r.orderId == oid) = none →
        releaseStock oid rid reason t =
          (some { success := false, message := "Reservation not found", newStock := none }, t)) ∧
    (∀ oid rid reason t r2,
        t.reservations.find? (fun r => r.id == rid && r.orderId == oid) = some r2 →
        r2.status ≠ .active →
        releaseStock oid rid reason t =
          (some { success := false
                  message := "Reservation already " ++ r2.status.toName
                  newStock := none }, t)) := by
  have hrel := releaseStock_success o.id resv.id "Order cancelled by user" inv resv p hfind hact hp
  have hcancel : cancelOrder db inv o.id =
      { code := 200
        db := (updateOrderStatus db o.id .cancelled none none).2
        inv := { products := setStock inv.products resv.productId (p.stock + resv.quantity)
                 reservations := inv.reservations.map
                   (fun r => if r.id == resv.id then { r with status := .released } else r)
                 auditLog := inv.auditLog ++
                   [{ productId := resv.productId, operation := "release"
                      quantityChange := resv.quantity, previousStock := p.stock
                      newStock := p.stock + resv.quantity, orderId := o.id
                      reservationId := resv.id
                      reason := "Order cancelled by user" }] }
        published := [.orderCancelled o.id] } := by
    simp [cancelOrder, ho, hst, hrid, strTruthy, hne, hrel]
  refine ⟨?_, ?_, ?_, ?_, ?_, ?_⟩
  · rw [hcancel]
  · rw [hcancel]
    have hmap := find?_map_guard (fun x : Product => x.id == resv.productId)
        (fun x : Product => { x with stock := p.stock + resv.quantity })
        (fun a => rfl) inv.products
    show ((inv.products.map fun x =>
        if x.id == resv.productId then { x with stock := p.stock + resv.quantity } else x).find?
          (fun x => x.id == resv.productId)).map Product.stock = some (p.stock + resv.quantity)
    rw [hmap]
    rw [show inv.products.find? (fun x => x.id == resv.productId) = some p from by
      simpa [findProduct] using hp]
    rfl
  · rw [hcancel]
    intro r hr hid
    rcases List.mem_map.mp hr with ⟨a, _, rfl⟩
    by_cases h : a.id == resv.id
    · simp [h]
    · rw [if_neg h] at hid ⊢
      exact absurd (by simp [hid]) h
  · rw [hcancel]
    show (getOrder (updateOrderStatus db o.id .cancelled none none).2 o.id).map Order.status =
      some OrderStatus.cancelled
    rw [getOrder_updateOrderStatus db o.id .cancelled none none o ho]
    rfl
  · intro oid rid reason t hf
    simp [releaseStock, hf]
  · intro oid rid reason t r2 hf hneact
    simp [releaseStock, hf, hneact]

/-- The confirmed order for the C7 witness. -/
def oC7 : Order :=
  { id := "o7", customerId := "c7", productId := "p7", quantity := 2
    status := .confirmed, idempotencyKey := some "k7", reservationId := some "r7"
    errorMessage := none, completedAt := true }

/-- Its Order DB. -/
def dbC7 : OrderDb := { orders := [oC7], orderEvents := [] }

/-- Inventory for the C7 witness: stock 98 after reserving 2 (pre-reservation 100). -/
def invC7 : InvState :=
  { products := [{ id := "p7", name := "P", stock := 98, lowStockThreshold := 5 }]
    reservations := [{ id := "r7", orderId := "o7", productId := "p7", quantity := 2
                       status := .active, idempotencyKey := some "k7" }]
    auditLog := [] }

/-- Witness for C7: the concrete cancel restores stock to 100 and cancels the order. -/
theorem C7_cancel_release_witness :
    (cancelOrder dbC7 invC7 oC7.id).code = 200 ∧
    (findProduct (cancelOrder dbC7 invC7 oC7.id).inv.products "p7").map Product.stock =
      some (98 + 2) ∧
    (getOrder (cancelOrder dbC7 invC7 oC7.id).db oC7.id).map Order.status =
      some OrderStatus.cancelled :=
  have h := C7_cancel_release dbC7 invC7 oC7
    { id := "r7", orderId := "o7", productId := "p7", quantity := 2
      status := .active, idempotencyKey := some "k7" }
    { id := "p7", name := "P", stock := 98, lowStockThreshold := 5 }
    (by decide) (by decide) (by decide) (by decide) (by decide) (by decide) (by decide)
  ⟨h.1, h.2.1, h.2.2.2.1⟩

/-! ## C5 — timeout / unavailable recovery path -/

/-- C5: when the reservation RPC fails with gRPC DEADLINE_EXCEEDED (client
classification `TIMEOUT`, 2 s deadline) or UNAVAILABLE, `POST /orders` moves
the order to `pending_verification`, enqueues one `VerifyOrder` message with
`{orderId, productId, quantity, idempotencyKey, originalRequestTime}`,
publishes `OrderPendingVerification`, and replies 202 with `success: true`. -/
theorem C5_timeout_recovery (genOrderId genKey now : String) (req : PostOrdersRequest)
    (db : OrderDb) (rpc : RpcOutcome) (code : Nat)
    (hc : strTruthy req.customerId = true)
    (hpr : strTruthy req.productId = true)
    (hq : intTruthy req.quantity = true)
    (hqpos : ¬ req.quantity.getD 0 ≤ 0)
    (hfresh : getOrderByIdempotencyKey db (req.idempotencyKey.getD genKey) = none)
    (hid : getOrder db genOrderId = none)
    (hcode : code = grpcDeadlineExceeded ∨ code = grpcUnavailable)
    (hrpc : rpc = rpcOutcomeOfError code) :
    GRPC_TIMEOUT_MS = 2000 ∧
    (postOrders genOrderId genKey now req rpc db).response.code = 202 ∧
    (postOrders genOrderId genKey now req rpc db).response.success = true ∧
    (getOrder (postOrders genOrderId genKey now req rpc db).db genOrderId).map Order.status =
      some OrderStatus.pending_verification ∧
    (postOrders genOrderId genKey now req rpc db).verifyQueue =
      [{ orderId := genOrderId, productId := req.productId.getD ""
         quantity := req.quantity.getD 0
         idempotencyKey := req.idempotencyKey.getD genKey
         originalRequestTime := now }] ∧
    (postOrders genOrderId genKey now req rpc db).published =
      [.orderCreated genOrderId (req.customerId.getD "") (req.productId.getD "")
         (req.quantity.getD 0),
       .orderPendingVerification genOrderId (req.productId.getD "")
         (req.quantity.getD 0) "gRPC timeout - verification required"] := by
  have hrpc2 : rpc = RpcOutcome.timeout ∨ rpc = RpcOutcome.unavailable := by
    rcases hcode with h | h <;> subst h <;>
      simp only [rpcOutcomeOfError, grpcDeadlineExceeded, grpcUnavailable] at hrpc
    · simp at hrpc
      exact Or.inl hrpc
    · simp at hrpc
      exact Or.inr hrpc
  have hid' : db.orders.find? (fun x => x.id == genOrderId) = none := by
    simpa [getOrder] using hid
  have hfresh' : List.find?
      (fun o => o.idempotencyKey == some (req.idempotencyKey.getD genKey)) db.orders = none := by
    simpa [getOrderByIdempotencyKey] using hfresh
  have hcache' : (match req.idempotencyKey with
      | some k => List.find? (fun o => o.idempotencyKey == some k) db.orders
      | none => none) = (none : Option Order) := by
    cases hik : req.idempotencyKey
    · rfl
    · simpa [hik] using hfresh'
  rcases hrpc2 with h | h <;> subst h <;>
    simp [postOrders, hqpos, hc, hpr, hq, hcache', createOrder, getOrderByIdempotencyKey,
      hfresh', updateOrderStatus, getOrder, List.find?_append, hid', find?_map_guard,
      applyUpdate, GRPC_TIMEOUT_MS] <;>
  · refine ⟨_, Or.inr ⟨?_, rfl⟩, rfl⟩
    intro x hx
    have hnx := List.find?_eq_none.mp hid' x hx
    by_cases hxe : x.id = genOrderId
    · simp [hxe] at hnx
    · simp [hxe]

/-- Request fixture for the C5 witness. -/
def reqC5w : PostOrdersRequest :=
  { customerId := some "c5", productId := some "p5", quantity := some 2
    idempotencyKey := some "k5" }

/-- Empty Order DB for the C5 witness. -/
def dbC5w : OrderDb := { orders := [], orderEvents := [] }

/-- Witness for C5: a concrete DEADLINE_EXCEEDED run replies 202 and enqueues
the verification message. -/
theorem C5_timeout_recovery_witness :
    GRPC_TIMEOUT_MS = 2000 ∧
    (postOrders "g5" "gk5" "t5" reqC5w RpcOutcome.timeout dbC5w).response.code = 202 ∧
    (postOrders "g5" "gk5" "t5" reqC5w RpcOutcome.timeout dbC5w).response.success = true ∧
    (getOrder (postOrders "g5" "gk5" "t5" reqC5w RpcOutcome.timeout dbC5w).db "g5").map
      Order.status = some OrderStatus.pending_verification ∧
    (postOrders "g5" "gk5" "t5" reqC5w RpcOutcome.timeout dbC5w).verifyQueue =
      [{ orderId := "g5", productId := "p5", quantity := 2
         idempotencyKey := "k5", originalRequestTime := "t5" }] ∧
    (postOrders "g5" "gk5" "t5" reqC5w RpcOutcome.timeout dbC5w).published =
      [.orderCreated "g5" "c5" "p5" 2,
       .orderPendingVerification "g5" "p5" 2 "gRPC timeout - verification required"] :=
  C5_timeout_recovery "g5" "gk5" "t5" reqC5w dbC5w RpcOutcome.timeout 4
    (by decide) (by decide) (by decide) (by decide) (by decide) (by decide)
    (Or.inl (by decide)) (by decide)

/-! ## C9 — POST /orders status codes -/

/-- A confirmed order stored under idempotency key `"k42"`. -/
def oC9 : Order :=
  { id := "o9", customerId := "c9", productId := "p9", quantity := 1
    status := .confirmed, idempotencyKey := some "k42", reservationId := some "r9"
    errorMessage := none, completedAt := true }

/-- Order DB for the C9 counterexample. -/
def dbC9 : OrderDb := { orders := [oC9], orderEvents := [] }

/-- A valid request replaying key `"k42"`. -/
def reqC9 : PostOrdersRequest :=
  { customerId := some "c9", productId := some "p9", quantity := some 1
    idempotencyKey := some "k42" }

/-- C9 (counterexample): replaying an idempotency key of an existing order
makes `POST /orders` reply HTTP 200, which is outside the claimed set
{201, 202, 400, 500}. -/
theorem C9_counterexample :
    (postOrders "g9" "gk9" "t9" reqC9 (.ok true "ok" "r9") dbC9).response.code = 200 ∧
    ¬ ((postOrders "g9" "gk9" "t9" reqC9 (.ok true "ok" "r9") dbC9).response.code = 201 ∨
       (postOrders "g9" "gk9" "t9" reqC9 (.ok true "ok" "r9") dbC9).response.code = 202 ∨
       (postOrders "g9" "gk9" "t9" reqC9 (.ok true "ok" "r9") dbC9).response.code = 400 ∨
       (postOrders "g9" "gk9" "t9" reqC9 (.ok true "ok" "r9") dbC9).response.code = 500) := by
  decide

/-- C9 (amended): every `POST /orders` reply carries one of the codes
{200, 201, 202, 400, 500}; 200 occurs only on the idempotent cache hit
(`cached = true`). 201/202/400/500 keep the claimed meanings. -/
theorem C9_status_codes (genOrderId genKey now : String) (req : PostOrdersRequest)
    (rpc : RpcOutcome) (db : OrderDb) :
    ((postOrders genOrderId genKey now req rpc db).response.code = 200 ∨
     (postOrders genOrderId genKey now req rpc db).response.code = 201 ∨
     (postOrders genOrderId genKey now req rpc db).response.code = 202 ∨
     (postOrders genOrderId genKey now req rpc db).response.code = 400 ∨
     (postOrders genOrderId genKey now req rpc db).response.code = 500) ∧
    ((postOrders genOrderId genKey now req rpc db).response.code = 200 →
     (postOrders genOrderId genKey now req rpc db).response.cached = true) := by
  unfold postOrders
  by_cases h1 : (strTruthy req.customerId = true ∧ strTruthy req.productId = true ∧
      intTruthy req.quantity = true)
  · by_cases h2 : req.quantity.getD 0 ≤ 0
    · simp [h1, h2]
    · rcases hik : req.idempotencyKey with _ | k
      · rcases rpc with ⟨succ, msg, rid⟩ | _ | _ | _
        · cases succ <;> simp [h1.1, h1.2.1, h1.2.2, h2, hik]
        · simp [h1.1, h1.2.1, h1.2.2, h2, hik]
        · simp [h1.1, h1.2.1, h1.2.2, h2, hik]
        · simp [h1.1, h1.2.1, h1.2.2, h2, hik]
      · rcases hhit : getOrderByIdempotencyKey db k with _ | ex
        · rcases rpc with ⟨succ, msg, rid⟩ | _ | _ | _
          · cases succ <;> simp [h1.1, h1.2.1, h1.2.2, h2, hik, hhit]
          · simp [h1.1, h1.2.1, h1.2.2, h2, hik, hhit]
          · simp [h1.1, h1.2.1, h1.2.2, h2, hik, hhit]
          · simp [h1.1, h1.2.1, h1.2.2, h2, hik, hhit]
        · simp [h1.1, h1.2.1, h1.2.2, h2, hik, hhit]
  · simp [h1]

/-! ## C8 — idempotent create -/

/-- `POST /orders` on an idempotency-key hit: HTTP 200 with the stored order,
`cached := true`, and no side effect of any kind (same DB, no events, no
verify message), independently of the RPC outcome. -/
theorem postOrders_cacheHit (genOrderId genKey now : String) (req : PostOrdersRequest)
    (rpc : RpcOutcome) (db : OrderDb) (k : String) (existing : Order)
    (hc : strTruthy req.customerId = true) (hpr : strTruthy req.productId = true)
    (hq : intTruthy req.quantity = true) (hqpos : ¬ req.quantity.getD 0 ≤ 0)
    (hk : req.idempotencyKey = some k)
    (hhit : getOrderByIdempotencyKey db k = some existing) :
    postOrders genOrderId genKey now req rpc db =
      { response := { code := 200, success := true, order := some existing, cached := true }
        db := db, published := [], verifyQueue := [] } := by
  simp [postOrders, hc, hpr, hq, hqpos, hk, hhit]

/-- A key-miss list extended with a row carrying the key finds that row. -/
theorem lookupKey_append (l : List Order) (o₀ : Order) (k : String)
    (hmiss : l.find? (fun o => o.idempotencyKey == some k) = none)
    (hkey : o₀.idempotencyKey = some k) :
    (l ++ [o₀]).find? (fun o => o.idempotencyKey == some k) = some o₀ := by
  rw [List.find?_append, hmiss]
  simp [hkey]

/-- After an id-guarded `applyUpdate` map over a key-miss list extended with a
row carrying the key, the key lookup still returns that row (updated or not):
`applyUpdate` never touches `idempotency_key`. -/
theorem lookupKey_after_update (l : List Order) (o₀ : Order) (orderId : String)
    (st : OrderStatus) (rid em : Option String) (k : String)
    (hmiss : l.find? (fun o => o.idempotencyKey == some k) = none)
    (hkey : o₀.idempotencyKey = some k) :
    ∃ o1, ((l ++ [o₀]).map
        (fun x => if x.id == orderId then applyUpdate x st rid em else x)).find?
        (fun o => o.idempotencyKey == some k) = some o1 ∧ o1.id = o₀.id := by
  rw [List.map_append, List.find?_append]
  have h1 : (l.map fun x => if x.id == orderId then applyUpdate x st rid em else x).find?
      (fun o => o.idempotencyKey == some k) = none := by
    apply find?_map_pres _ _ _ _ hmiss
    intro a
    by_cases h : a.id == orderId <;> simp [h, applyUpdate]
  rw [h1]
  by_cases h : o₀.id = orderId
  · exact ⟨applyUpdate o₀ st rid em, by simp [h, applyUpdate, hkey], rfl⟩
  · exact ⟨o₀, by simp [h, hkey], rfl⟩

/-- A key-miss creation run records the key: afterwards the key lookup returns
a row whose id is the freshly generated order id, whatever the RPC outcome. -/
theorem postOrders_records_key (genOrderId genKey now : String) (req : PostOrdersRequest)
    (rpc : RpcOutcome) (db : OrderDb) (k : String)
    (hc : strTruthy req.customerId = true) (hpr : strTruthy req.productId = true)
    (hq : intTruthy req.quantity = true) (hqpos : ¬ req.quantity.getD 0 ≤ 0)
    (hk : req.idempotencyKey = some k)
    (hmiss : getOrderByIdempotencyKey db k = none) :
    ∃ o1, getOrderByIdempotencyKey (postOrders genOrderId genKey now req rpc db).db k =
        some o1 ∧ o1.id = genOrderId := by
  have hk' : req.idempotencyKey.getD genKey = k := by rw [hk]; rfl
  have hmiss' : db.orders.find? (fun o => o.idempotencyKey == some k) = none := by
    simpa [getOrderByIdempotencyKey] using hmiss
  have hbase : ∀ ev : List OrderEventRow,
      ∃ o1, getOrderByIdempotencyKey
        { orders := db.orders ++
            [{ id := genOrderId, customerId := req.customerId.getD ""
               productId := req.productId.getD "", quantity := req.quantity.getD 0
               status := .pending, idempotencyKey := some k
               reservationId := none, errorMessage := none, completedAt := false }]
          orderEvents := ev } k = some o1 ∧ o1.id = genOrderId := by
    intro ev
    refine ⟨{ id := genOrderId, customerId := req.customerId.getD ""
              productId := req.productId.getD "", quantity := req.quantity.getD 0
              status := .pending, idempotencyKey := some k
              reservationId := none, errorMessage := none, completedAt := false }, ?_, rfl⟩
    exact lookupKey_append db.orders _ k hmiss' rfl
  have hup : ∀ (ev : List OrderEventRow) (st : OrderStatus) (rid em : Option String),
      ∃ o1, getOrderByIdempotencyKey
        (updateOrderStatus
          { orders := db.orders ++
              [{ id := genOrderId, customerId := req.customerId.getD ""
                 productId := req.productId.getD "", quantity := req.quantity.getD 0
                 status := .pending, idempotencyKey := some k
                 reservationId := none, errorMessage := none, completedAt := false }]
            orderEvents := ev } genOrderId st rid em).2 k = some o1 ∧ o1.id = genOrderId := by
    intro ev st rid em
    unfold updateOrderStatus
    rcases hgo : getOrder
        { orders := db.orders ++
            [{ id := genOrderId, customerId := req.customerId.getD ""
               productId := req.productId.getD "", quantity := req.quantity.getD 0
               status := .pending, idempotencyKey := some k
               reservationId := none, errorMessage := none, completedAt := false }]
          orderEvents := ev } genOrderId with _ | o
    · simpa [hgo] using hbase ev
    · simp only [hgo]
      obtain ⟨o1, ho1, hid1⟩ :=
        lookupKey_after_update db.orders
          { id := genOrderId, customerId := req.customerId.getD ""
            productId := req.productId.getD "", quantity := req.quantity.getD 0
            status := .pending, idempotencyKey := some k
            reservationId := none, errorMessage := none, completedAt := false }
          genOrderId st rid em k hmiss' rfl
      exact ⟨o1, by simpa [getOrderByIdempotencyKey] using ho1, hid1⟩
  rcases rpc with ⟨succ, msg, rid⟩ | _ | _ | _
  · cases succ
    · have hpost : (postOrders genOrderId genKey now req (.ok false msg rid) db).db =
          (updateOrderStatus
            { orders := db.orders ++
                [{ id := genOrderId, customerId := req.customerId.getD ""
                   productId := req.productId.getD "", quantity := req.quantity.getD 0
                   status := .pending, idempotencyKey := some k
                   reservationId := none, errorMessage := none, completedAt := false }]
              orderEvents := db.orderEvents ++ [{ orderId := genOrderId
                                                  eventType := "OrderCreated" }] }
            genOrderId .failed none (some msg)).2 := by
        simp [postOrders, hc, hpr, hq, hqpos, hk, hmiss, createOrder, hk']
      rw [hpost]
      exact hup _ .failed none (some msg)
    · have hpost : (postOrders genOrderId genKey now req (.ok true msg rid) db).db =
          (updateOrderStatus
            { orders := db.orders ++
                [{ id := genOrderId, customerId := req.customerId.getD ""
                   productId := req.productId.getD "", quantity := req.quantity.getD 0
                   status := .pending, idempotencyKey := some k
                   reservationId := none, errorMessage := none, completedAt := false }]
              orderEvents := db.orderEvents ++ [{ orderId := genOrderId
                                                  eventType := "OrderCreated" }] }
            genOrderId .confirmed (some rid) none).2 := by
        simp [postOrders, hc, hpr, hq, hqpos, hk, hmiss, createOrder, hk']
      rw [hpost]
      exact hup _ .confirmed (some rid) none
  · have hpost : (postOrders genOrderId genKey now req .timeout db).db =
        (updateOrderStatus
          { orders := db.orders ++
              [{ id := genOrderId, customerId := req.customerId.getD ""
                 productId := req.productId.getD "", quantity := req.quantity.getD 0
                 status := .pending, idempotencyKey := some k
                 reservationId := none, errorMessage := none, completedAt := false }]
            orderEvents := db.orderEvents ++ [{ orderId := genOrderId
                                                eventType := "OrderCreated" }] }
          genOrderId .pending_verification none none).2 := by
      simp [postOrders, hc, hpr, hq, hqpos, hk, hmiss, createOrder, hk']
    rw [hpost]
    exact hup _ .pending_verification none none
  · have hpost : (postOrders genOrderId genKey now req .unavailable db).db =
        (updateOrderStatus
          { orders := db.orders ++
              [{ id := genOrderId, customerId := req.customerId.getD ""
                 productId := req.productId.getD "", quantity := req.quantity.getD 0
                 status := .pending, idempotencyKey := some k
                 reservationId := none, errorMessage := none, completedAt := false }]
            orderEvents := db.orderEvents ++ [{ orderId := genOrderId
                                                eventType := "OrderCreated" }] }
          genOrderId .pending_verification none none).2 := by
      simp [postOrders, hc, hpr, hq, hqpos, hk, hmiss, createOrder, hk']
    rw [hpost]
    exact hup _ .pending_verification none none
  · have hpost : (postOrders genOrderId genKey now req .err db).db =
        { orders := db.orders ++
            [{ id := genOrderId, customerId := req.customerId.getD ""
               productId := req.productId.getD "", quantity := req.quantity.getD 0
               status := .pending, idempotencyKey := some k
               reservationId := none, errorMessage := none, completedAt := false }]
          orderEvents := db.orderEvents ++ [{ orderId := genOrderId
                                              eventType := "OrderCreated" }] } := by
      simp [postOrders, hc, hpr, hq, hqpos, hk, hmiss, createOrder, hk']
    rw [hpost]
    exact hbase _

/-- C8: an idempotency-key hit returns the stored order unchanged with
`cached = true` and performs no side effect (no order row, no publish, no
verify message, RPC outcome irrelevant); consequently a second create request
with the same key returns the order id generated by the first and leaves the
database untouched. -/
theorem C8_idempotent_create (genOrderId genKey now g2 gk2 n2 : String)
    (req : PostOrdersRequest) (rpc rpc2 : RpcOutcome) (db db0 : OrderDb)
    (k : String) (existing : Order)
    (hc : strTruthy req.customerId = true) (hpr : strTruthy req.productId = true)
    (hq : intTruthy req.quantity = true) (hqpos : ¬ req.quantity.getD 0 ≤ 0)
    (hk : req.idempotencyKey = some k)
    (hhit : getOrderByIdempotencyKey db k = some existing)
    (hmiss0 : getOrderByIdempotencyKey db0 k = none) :
    postOrders genOrderId genKey now req rpc db =
      { response := { code := 200, success := true, order := some existing, cached := true }
        db := db, published := [], verifyQueue := [] } ∧
    ((postOrders g2 gk2 n2 req rpc2
        (postOrders genOrderId genKey now req rpc db0).db).response.order).map Order.id =
      some genOrderId ∧
    (postOrders g2 gk2 n2 req rpc2 (postOrders genOrderId genKey now req rpc db0).db).db =
      (postOrders genOrderId genKey now req rpc db0).db := by
  obtain ⟨o1, ho1, hid1⟩ :=
    postOrders_records_key genOrderId genKey now req rpc db0 k hc hpr hq hqpos hk hmiss0
  have hsecond := postOrders_cacheHit g2 gk2 n2 req rpc2 _ k o1 hc hpr hq hqpos hk ho1
  refine ⟨postOrders_cacheHit genOrderId genKey now req rpc db k existing
      hc hpr hq hqpos hk hhit, ?_, ?_⟩
  · rw [hsecond]
    simp [hid1]
  · rw [hsecond]

/-- A confirmed order stored under key `"k8"`. -/
def oC8 : Order :=
  { id := "o8", customerId := "c8", productId := "p8", quantity := 1
    status := .confirmed, idempotencyKey := some "k8", reservationId := some "r8"
    errorMessage := none, completedAt := true }

/-- Order DB holding `oC8`. -/
def dbC8 : OrderDb := { orders := [oC8], orderEvents := [] }

/-- Empty Order DB for the two-request part of the C8 witness. -/
def dbC8e : OrderDb := { orders := [], orderEvents := [] }

/-- A valid request carrying key `"k8"`. -/
def reqC8 : PostOrdersRequest :=
  { customerId := some "c8", productId := some "p8", quantity := some 1
    idempotencyKey := some "k8" }

/-- Witness for C8 at concrete requests. -/
theorem C8_idempotent_create_witness :
    postOrders "g8" "gk8" "t8" reqC8 (.ok true "ok" "r8") dbC8 =
      { response := { code := 200, success := true, order := some oC8, cached := true }
        db := dbC8, published := [], verifyQueue := [] } ∧
    ((postOrders "g8b" "gk8b" "t8b" reqC8 (.ok true "ok" "r8")
        (postOrders "g8" "gk8" "t8" reqC8 (.ok true "ok" "r8") dbC8e).db).response.order).map
      Order.id = some "g8" ∧
    (postOrders "g8b" "gk8b" "t8b" reqC8 (.ok true "ok" "r8")
        (postOrders "g8" "gk8" "t8" reqC8 (.ok true "ok" "r8") dbC8e).db).db =
      (postOrders "g8" "gk8" "t8" reqC8 (.ok true "ok" "r8") dbC8e).db :=
  C8_idempotent_create "g8" "gk8" "t8" "g8b" "gk8b" "t8b" reqC8
    (.ok true "ok" "r8") (.ok true "ok" "r8") dbC8 dbC8e "k8" oC8
    (by decide) (by decide) (by decide) (by decide) (by decide) (by decide) (by decide)

end Valerixy
